import Mathlib

/-!
Verification of the admin state-sync mediator of the pdfviewer remote
collaboration repository (`src/js/admin.js`), as a shallow embedding.

The mediator keeps local UI state (deck selector, page-number field,
pages-count display, PDF viewer) in sync with a remote presenter-state
document.  Handlers are embedded as pure functions from an `AdminState`
and their input to a new `AdminState` together with a list of observable
`Effect`s (remote writes, deck loads, viewer page sets, error logs).

JS numeric quirks that matter (`parseInt` producing `NaN`, `NaN`
comparing unequal to everything, `Math.min`/`Math.max` propagating
`NaN`) are modelled by the `JSNum` type.  JS `null`/`undefined` values
of string variables are modelled by `Option String` with `none` for
both (loose equality `==` identifies them).
-/

namespace PdfAdmin

/-- A JS number as it occurs in the page-number data flow of `admin.js`:
either an integer (every page number produced by `parseInt` or `clamp`
is integral) or `NaN`. -/
inductive JSNum where
  | int (n : Int)
  | nan
  deriving DecidableEq, Repr

/-- `Number.isInteger` on the numbers that occur here: true exactly on
non-`NaN` values (all of which are integral). -/
def JSNum.isInt : JSNum → Bool
  | .int _ => true
  | .nan => false

/-- JS loose inequality `!=` on numbers: `NaN` is unequal to everything,
itself included. -/
def jsNeq : JSNum → JSNum → Bool
  | .int a, .int b => a != b
  | _, _ => true

/-- JS `+` on numbers, propagating `NaN`. -/
def jsAdd : JSNum → JSNum → JSNum
  | .int a, .int b => .int (a + b)
  | _, _ => .nan

/-- JS `Math.max` on two numbers, propagating `NaN`. -/
def jsMax : JSNum → JSNum → JSNum
  | .int a, .int b => .int (max a b)
  | _, _ => .nan

/-- JS `Math.min` on two numbers, propagating `NaN`. -/
def jsMin : JSNum → JSNum → JSNum
  | .int a, .int b => .int (min a b)
  | _, _ => .nan

/-- `function clamp(value, min, max) { return Math.min(Math.max(value, min), max); }`
(`admin.js` lines 17-19), restricted to actual integers. -/
def clamp (value lo hi : Int) : Int := min (max value lo) hi

/-- The same `clamp` as it evaluates inside `_onPageChangeButton`, where the
current page may be `NaN` (then `Math.max`/`Math.min` propagate it). -/
def clampJS (value lo hi : JSNum) : JSNum := jsMin (jsMax value lo) hi

/-- Whitespace characters skipped by JS `parseInt`. -/
def jsWhitespace (c : Char) : Bool :=
  c = ' ' || c = '\t' || c = '\n' || c = '\r'

/-- Hexadecimal digit test for the `0x` branch of `parseInt`. -/
def isHexDigit (c : Char) : Bool :=
  c.isDigit || (97 ≤ c.toLower.toNat && c.toLower.toNat ≤ 102)

/-- Value of one hexadecimal digit. -/
def hexDigitVal (c : Char) : Nat :=
  if c.isDigit then c.toNat - 48 else c.toLower.toNat - 87

/-- Value of a list of decimal digits. -/
def decDigitsVal (cs : List Char) : Nat :=
  cs.foldl (fun a c => a * 10 + (c.toNat - 48)) 0

/-- Value of a list of hexadecimal digits. -/
def hexDigitsVal (cs : List Char) : Nat :=
  cs.foldl (fun a c => a * 16 + hexDigitVal c) 0

/-- JS `parseInt` on a character list: skip leading whitespace, take an
optional sign, then either a `0x`/`0X`-prefixed run of hex digits or a
run of decimal digits; `NaN` when no digit follows. -/
def parseIntCore (cs0 : List Char) : JSNum :=
  let cs1 := cs0.dropWhile jsWhitespace
  let signed : Int × List Char :=
    match cs1 with
    | '-' :: rest => (-1, rest)
    | '+' :: rest => (1, rest)
    | _ => (1, cs1)
  match signed.2 with
  | '0' :: x :: rest =>
    if x = 'x' || x = 'X' then
      let ds := rest.takeWhile isHexDigit
      if ds.isEmpty then .nan else .int (signed.1 * hexDigitsVal ds)
    else
      .int (signed.1 * decDigitsVal (('0' :: x :: rest).takeWhile Char.isDigit))
  | cs2 =>
    let ds := cs2.takeWhile Char.isDigit
    if ds.isEmpty then .nan else .int (signed.1 * decDigitsVal ds)

/-- JS `parseInt` applied to a possibly-missing field: `parseInt(undefined)`
is `NaN`; a present value is coerced to its string. -/
def parseIntJS : Option String → JSNum
  | none => .nan
  | some s => parseIntCore s.data

/-- An observable effect emitted by a handler of `AdminApp`. -/
inductive Effect where
  /-- `updateDoc(this.presenterStateRef, { currentDeck: deckName })`. -/
  | updateDeckDoc (deckName : Option String)
  /-- `updateDoc(this.presenterStateRef, { currentPageNumber: pageNumber })`. -/
  | updatePageDoc (pageNumber : JSNum)
  /-- `this._updateDeck(remoteDeck)`: ask the viewer to load a deck. -/
  | loadDeck (deckName : Option String)
  /-- `this.viewer.currentPageNumber = pageNumber`: drive the viewer page. -/
  | setViewerPage (pageNumber : JSNum)
  /-- `console.error(message, ...)`. -/
  | logError (message : String)
  deriving DecidableEq, Repr

/-- Is the effect a remote write to the presenter-state document? -/
def Effect.isRemoteWrite : Effect → Bool
  | .updateDeckDoc _ => true
  | .updatePageDoc _ => true
  | _ => false

/-- Is the effect a viewer deck load? -/
def Effect.isLoadDeck : Effect → Bool
  | .loadDeck _ => true
  | _ => false

/-- Is the effect a viewer set-current-page operation? -/
def Effect.isSetViewerPage : Effect → Bool
  | .setViewerPage _ => true
  | _ => false

/-- Is the effect an error log? -/
def Effect.isLogError : Effect → Bool
  | .logError _ => true
  | _ => false

/-- The state of an `AdminApp` instance visible to the handlers:
mediator fields (`_currentDeck`, `_currentPageNumber`), the UI controls
they mirror (`deckNameInput.value`, `pageNumberInput.value`,
`pagesCountSpan.textContent`), the opaque viewer
(`viewer.pagesCount`, `viewer.currentPageNumber`) and the auth session
(`auth.currentUser`, `none` when signed out). -/
structure AdminState where
  currentDeck : Option String
  currentPageNumber : JSNum
  deckNameInputValue : Option String
  pageNumberInputValue : JSNum
  pagesCountText : Nat
  viewerPagesCount : Nat
  viewerPageNumber : JSNum
  authUser : Option String
  deriving DecidableEq, Repr

/-- `set currentDeck(deckName)` (`admin.js` lines 104-107): store the name
and reflect it in the deck selector.  No viewer call and no remote write. -/
def setCurrentDeck (s : AdminState) (deckName : Option String) : AdminState :=
  { s with currentDeck := deckName, deckNameInputValue := deckName }

/-- `set currentPageNumber(pageNumber)` (`admin.js` lines 118-122): store
the number, reflect it in the page field and drive the viewer. -/
def setCurrentPageNumber (s : AdminState) (pageNumber : JSNum) :
    AdminState × List Effect :=
  ({ s with currentPageNumber := pageNumber,
            pageNumberInputValue := pageNumber,
            viewerPageNumber := pageNumber },
   [Effect.setViewerPage pageNumber])

/-- The fields of a remote presenter-state snapshot that `_onSnapshot`
reads, each possibly missing (`none` for JS `undefined`); the page field
is the raw value handed to `parseInt`, modelled as its string coercion. -/
structure RemoteData where
  currentDeck : Option String
  currentPageNumber : Option String
  deriving DecidableEq, Repr

/-- `_onSnapshot(doc)` (`admin.js` lines 143-161) together with the
resolution of the asynchronous `_updateDeck` promise it may start.
The synchronous body compares the remote deck and the `parseInt`ed
remote page with the local ones and (a) starts a deck load when the
decks differ, (b) assigns the page setter when the pages differ.
The promise settles after the synchronous body (browser event loop):
on success (`loadOk = true`) the deck setter runs and the pages-count
display is refreshed from the freshly loaded viewer
(`loadedPagesCount`); on failure the error is logged and nothing else
happens. -/
def onSnapshot (s : AdminState) (data : RemoteData) (loadOk : Bool)
    (loadedPagesCount : Nat) : AdminState × List Effect :=
  let remoteDeck := data.currentDeck
  let remotePage := parseIntJS data.currentPageNumber
  let deckDiffers : Bool := s.currentDeck != remoteDeck
  let loadEffects := if deckDiffers then [Effect.loadDeck remoteDeck] else []
  let stepPage :=
    if jsNeq s.currentPageNumber remotePage then setCurrentPageNumber s remotePage
    else (s, [])
  if deckDiffers then
    if loadOk then
      ({ setCurrentDeck stepPage.1 remoteDeck with
           pagesCountText := loadedPagesCount,
           viewerPagesCount := loadedPagesCount },
       loadEffects ++ stepPage.2)
    else
      (stepPage.1,
       loadEffects ++ stepPage.2 ++ [Effect.logError "Error loading document: "])
  else
    (stepPage.1, stepPage.2)

/-- `_onDeckNameInputChange(event)` (`admin.js` lines 167-177): on a new
non-null deck name differing from the current one, run the deck setter
and, only when a user is signed in, write `{ currentDeck }` remotely. -/
def onDeckNameInputChange (s : AdminState) (deckName : Option String) :
    AdminState × List Effect :=
  if deckName != none && deckName != s.currentDeck then
    let s1 := setCurrentDeck s deckName
    if s.authUser != none then (s1, [Effect.updateDeckDoc deckName])
    else (s1, [])
  else (s, [])

/-- `_onPageNumberInputChange(event)` (`admin.js` lines 183-193):
`parseInt` the field text; on an integer differing from the current
page, run the page setter and, only when a user is signed in, write
`{ currentPageNumber }` remotely.  No clamping. -/
def onPageNumberInputChange (s : AdminState) (value : String) :
    AdminState × List Effect :=
  let pageNumber := parseIntJS (some value)
  if pageNumber.isInt && jsNeq pageNumber s.currentPageNumber then
    let step := setCurrentPageNumber s pageNumber
    if s.authUser != none then (step.1, step.2 ++ [Effect.updatePageDoc pageNumber])
    else (step.1, step.2)
  else (s, [])

/-- `_onPageChangeButton(delta, event)` (`admin.js` lines 200-213), the
prev/next buttons and arrow keys: clamp `current + delta` to
`[1, viewer.pagesCount]`; on an integer differing from the current
page, run the page setter and, only when a user is signed in, write
`{ currentPageNumber }` remotely. -/
def onPageChangeButton (s : AdminState) (delta : Int) :
    AdminState × List Effect :=
  let pageNumber :=
    clampJS (jsAdd s.currentPageNumber (.int delta)) (.int 1)
      (.int (s.viewerPagesCount : Int))
  if pageNumber.isInt && jsNeq pageNumber s.currentPageNumber then
    let step := setCurrentPageNumber s pageNumber
    if s.authUser != none then (step.1, step.2 ++ [Effect.updatePageDoc pageNumber])
    else (step.1, step.2)
  else (s, [])

/-- A sequence of remote snapshot notifications, each paired with the
outcome of the deck load it may start, handled in delivery order. -/
def runSnapshots (s : AdminState) :
    List (RemoteData × Bool × Nat) → AdminState × List Effect
  | [] => (s, [])
  | x :: rest =>
    let step := onSnapshot s x.1 x.2.1 x.2.2
    let tail := runSnapshots step.1 rest
    (tail.1, step.2 ++ tail.2)

/-- Is the local current page an integer within `[1, viewer.pagesCount]`? -/
def pageInRange (s : AdminState) : Bool :=
  match s.currentPageNumber with
  | .int n => 1 ≤ n && n ≤ (s.viewerPagesCount : Int)
  | .nan => false

/-- Number of viewer set-page invocations in an effect list. -/
def countPageSets (l : List Effect) : Nat :=
  (l.filter Effect.isSetViewerPage).length

/-- Starting from current page `cur`, how many of the successively
notified page values differ (JS `!=`) from the page current at their
delivery — i.e. one count per distinct notified value, none for a
notification repeating the current page. -/
def countDistinctFrom (cur : JSNum) : List JSNum → Nat
  | [] => 0
  | p :: rest =>
    if jsNeq cur p then countDistinctFrom p rest + 1
    else countDistinctFrom cur rest

/-! Concrete states used to instantiate the theorems below: an operator
on deck "A", page 3 of 10, signed in (`stateA`) or signed out
(`stateA0`). -/

def stateA : AdminState :=
  { currentDeck := some "A", currentPageNumber := .int 3,
    deckNameInputValue := some "A", pageNumberInputValue := .int 3,
    pagesCountText := 10, viewerPagesCount := 10, viewerPageNumber := .int 3,
    authUser := some "operator" }

def stateA0 : AdminState := { stateA with authUser := none }

/-! ### Theorems -/

/-- C7: for all integers `value`, `lo ≤ hi`: `clamp value lo hi` returns
`value` when `lo ≤ value ≤ hi`, returns `lo` when `value < lo`, and
returns `hi` when `hi < value`. -/
theorem clamp_spec (value lo hi : Int) (h : lo ≤ hi) :
    (lo ≤ value ∧ value ≤ hi → clamp value lo hi = value) ∧
    (value < lo → clamp value lo hi = lo) ∧
    (hi < value → clamp value lo hi = hi) := by
  simp only [clamp, min_def, max_def]
  split_ifs <;> (constructor <;> [skip; constructor]) <;> intro hv <;> omega

/-- Witness for C7 at `value = 5, -2, 42` with `lo = 1`, `hi = 10`. -/
theorem clamp_spec_witness :
    (1 : Int) ≤ 10 ∧ clamp 5 1 10 = 5 ∧ clamp (-2) 1 10 = 1 ∧
      clamp 42 1 10 = 10 := by
  refine ⟨by decide, ?_, ?_, ?_⟩
  · exact (clamp_spec 5 1 10 (by decide)).1 ⟨by decide, by decide⟩
  · exact (clamp_spec (-2) 1 10 (by decide)).2.1 (by decide)
  · exact (clamp_spec 42 1 10 (by decide)).2.2 (by decide)

/-- C1: handling a remote change notification never issues a remote
write to the presenter-state document, for every local state, every
notified data, and every outcome of the deck load it may start. -/
theorem snapshot_issues_no_remote_write (s : AdminState) (data : RemoteData)
    (loadOk : Bool) (pc : Nat) :
    ((onSnapshot s data loadOk pc).2).filter Effect.isRemoteWrite = [] := by
  simp only [onSnapshot, setCurrentPageNumber]
  repeat' split
  all_goals simp [Effect.isRemoteWrite, List.filter_append, List.filter]

/-- C2: for every user-input-origin change whose new value differs from
the current local one, the remote write of the changed field is issued
exactly when the auth session is non-null, and the local change is
applied either way — for the deck selector, the page-number field, and
prev/next navigation alike. -/
theorem user_input_write_gating (s : AdminState) :
    (∀ d : String, some d ≠ s.currentDeck →
      (onDeckNameInputChange s (some d)).1.currentDeck = some d ∧
      ((onDeckNameInputChange s (some d)).2).filter Effect.isRemoteWrite =
        (if s.authUser ≠ none then [Effect.updateDeckDoc (some d)] else [])) ∧
    (∀ v : String, ∀ n : Int, parseIntJS (some v) = .int n →
      jsNeq (.int n) s.currentPageNumber = true →
      (onPageNumberInputChange s v).1.currentPageNumber = .int n ∧
      ((onPageNumberInputChange s v).2).filter Effect.isRemoteWrite =
        (if s.authUser ≠ none then [Effect.updatePageDoc (.int n)] else [])) ∧
    (∀ delta n : Int,
      clampJS (jsAdd s.currentPageNumber (.int delta)) (.int 1)
          (.int (s.viewerPagesCount : Int)) = .int n →
      jsNeq (.int n) s.currentPageNumber = true →
      (onPageChangeButton s delta).1.currentPageNumber = .int n ∧
      ((onPageChangeButton s delta).2).filter Effect.isRemoteWrite =
        (if s.authUser ≠ none then [Effect.updatePageDoc (.int n)] else [])) := by
  refine ⟨fun d hd => ?_, fun v n hv hne => ?_, fun delta n hc hne => ?_⟩
  · unfold onDeckNameInputChange setCurrentDeck
    have hd2 : (some d != s.currentDeck) = true := by
      simpa [bne_iff_ne] using hd
    rcases hauth : s.authUser with _ | u <;>
      simp [hd2, hauth, Effect.isRemoteWrite, List.filter]
  · unfold onPageNumberInputChange setCurrentPageNumber
    rcases hauth : s.authUser with _ | u <;>
      simp [hv, hne, JSNum.isInt, hauth, Effect.isRemoteWrite,
        List.filter_append, List.filter]
  · unfold onPageChangeButton setCurrentPageNumber
    rcases hauth : s.authUser with _ | u <;>
      simp [hc, hne, JSNum.isInt, hauth, Effect.isRemoteWrite,
        List.filter_append, List.filter]

/-- Witness for C2: in `stateA` (signed in) a deck change to "B" writes
the deck, a page change to 99 writes the page, and a next-page press
writes page 4; in `stateA0` (signed out) the deck change is applied
locally but writes nothing. -/
theorem user_input_write_gating_witness :
    ((onDeckNameInputChange stateA (some "B")).2.filter Effect.isRemoteWrite =
        (if stateA.authUser ≠ none then [Effect.updateDeckDoc (some "B")] else [])) ∧
    ((onPageNumberInputChange stateA "99").2.filter Effect.isRemoteWrite =
        (if stateA.authUser ≠ none then [Effect.updatePageDoc (.int 99)] else [])) ∧
    ((onPageChangeButton stateA 1).2.filter Effect.isRemoteWrite =
        (if stateA.authUser ≠ none then [Effect.updatePageDoc (.int 4)] else [])) ∧
    ((onDeckNameInputChange stateA0 (some "B")).1.currentDeck = some "B" ∧
      (onDeckNameInputChange stateA0 (some "B")).2.filter Effect.isRemoteWrite =
        (if stateA0.authUser ≠ none then [Effect.updateDeckDoc (some "B")] else [])) := by
  refine ⟨?_, ?_, ?_, ?_⟩
  · exact ((user_input_write_gating stateA).1 "B" (by decide)).2
  · exact ((user_input_write_gating stateA).2.1 "99" 99 (by decide) (by decide)).2
  · exact (user_input_write_gating stateA).2.2 1 4 (by decide) (by decide) |>.2
  · exact (user_input_write_gating stateA0).1 "B" (by decide)

/-- C3 fails as stated: in `stateA` (page 3 of a 10-page deck) typing
"99" into the page-number field is an operation of the mediator after
which the local page number is 99, outside `[1, pagesCount] = [1, 10]`. -/
theorem page_range_invariant_counterexample :
    pageInRange ((onPageNumberInputChange stateA "99").1) = false ∧
    (onPageNumberInputChange stateA "99").1.currentPageNumber = .int 99 ∧
    (onPageNumberInputChange stateA "99").1.viewerPagesCount = 10 := by
  refine ⟨?_, ?_, ?_⟩ <;> decide

/-- C3 amended: the in-range invariant holds after prev/next (and
arrow-key) navigation — when the viewer reports at least one page, the
navigation either leaves the page number unchanged or lands it in
`[1, pagesCount]` — but not after page-number field input or remote
notification handling, which apply the new value unclamped. -/
theorem page_change_button_in_range (s : AdminState) (delta : Int)
    (h : 1 ≤ s.viewerPagesCount) :
    (onPageChangeButton s delta).1 = s ∨
    pageInRange ((onPageChangeButton s delta).1) = true := by
  rcases hcur : s.currentPageNumber with n | _
  · simp only [onPageChangeButton, setCurrentPageNumber, hcur, jsAdd, clampJS,
      jsMax, jsMin, JSNum.isInt, jsNeq, Bool.and_eq_true]
    split
    · right
      have h1 : (1 : Int) ≤ (s.viewerPagesCount : Int) := by exact_mod_cast h
      rcases hauth : s.authUser with _ | u <;>
        simp [hauth, pageInRange] <;> omega
    · left; rfl
  · simp [onPageChangeButton, hcur, clampJS, jsAdd, jsMax, jsMin, JSNum.isInt]

/-- Witness for C3 amended: in `stateA` pressing "next" moves to page 4,
which is in `[1, 10]`. -/
theorem page_change_button_in_range_witness :
    1 ≤ stateA.viewerPagesCount ∧
    ((onPageChangeButton stateA 1).1 = stateA ∨
      pageInRange ((onPageChangeButton stateA 1).1) = true) :=
  ⟨by decide, page_change_button_in_range stateA 1 (by decide)⟩

/-- C4: clamping is asymmetric — a page-number field input parsing to an
integer `n` different from the current page is applied as `n` itself,
never clamped (and written remotely as `n` when authenticated), while
prev/next navigation always evaluates
`clamp(current + delta, 1, pagesCount)` and the page after it is either
unchanged or exactly that clamped value. -/
theorem asymmetric_clamping (s : AdminState) :
    (∀ v : String, ∀ n : Int, parseIntJS (some v) = .int n →
      jsNeq (.int n) s.currentPageNumber = true →
      (onPageNumberInputChange s v).1.currentPageNumber = .int n ∧
      (onPageNumberInputChange s v).1.pageNumberInputValue = .int n ∧
      (s.authUser ≠ none →
        ((onPageNumberInputChange s v).2).filter Effect.isRemoteWrite =
          [Effect.updatePageDoc (.int n)])) ∧
    (∀ delta : Int,
      (onPageChangeButton s delta).1.currentPageNumber = s.currentPageNumber ∨
      (onPageChangeButton s delta).1.currentPageNumber =
        clampJS (jsAdd s.currentPageNumber (.int delta)) (.int 1)
          (.int (s.viewerPagesCount : Int))) := by
  constructor
  · intro v n hv hne
    unfold onPageNumberInputChange setCurrentPageNumber
    rcases hauth : s.authUser with _ | u <;>
      simp [hv, hne, JSNum.isInt, hauth, Effect.isRemoteWrite,
        List.filter_append, List.filter]
  · intro delta
    simp only [onPageChangeButton, setCurrentPageNumber]
    split
    · right
      rcases hauth : s.authUser with _ | u <;> simp [hauth]
    · left; rfl

/-- Witness for C4: in `stateA` (10 pages, page 3) typing "99" sets page
99 unclamped and writes 99 remotely; pressing next applies the clamp. -/
theorem asymmetric_clamping_witness :
    ((onPageNumberInputChange stateA "99").1.currentPageNumber = .int 99 ∧
      ((onPageNumberInputChange stateA "99").2).filter Effect.isRemoteWrite =
        [Effect.updatePageDoc (.int 99)]) ∧
    ((onPageChangeButton stateA 1).1.currentPageNumber = stateA.currentPageNumber ∨
      (onPageChangeButton stateA 1).1.currentPageNumber =
        clampJS (jsAdd stateA.currentPageNumber (.int 1)) (.int 1)
          (.int (stateA.viewerPagesCount : Int))) := by
  constructor
  · have h := (asymmetric_clamping stateA).1 "99" 99 (by decide) (by decide)
    exact ⟨h.1, h.2.2 (by decide)⟩
  · exact (asymmetric_clamping stateA).2 1

/-- C6: when the auth session is null, a user-input deck or page change
is applied to the local state, reflected in the matching UI control, and
drives the viewer on page changes, while the handler issues zero remote
writes — for the deck selector, the page-number field, and prev/next
navigation alike. -/
theorem unauthenticated_local_only (s : AdminState) (hauth : s.authUser = none) :
    (∀ d : String, some d ≠ s.currentDeck →
      (onDeckNameInputChange s (some d)).1.currentDeck = some d ∧
      (onDeckNameInputChange s (some d)).1.deckNameInputValue = some d ∧
      ((onDeckNameInputChange s (some d)).2).filter Effect.isRemoteWrite = []) ∧
    (∀ v : String, ∀ n : Int, parseIntJS (some v) = .int n →
      jsNeq (.int n) s.currentPageNumber = true →
      (onPageNumberInputChange s v).1.currentPageNumber = .int n ∧
      (onPageNumberInputChange s v).1.pageNumberInputValue = .int n ∧
      (onPageNumberInputChange s v).1.viewerPageNumber = .int n ∧
      ((onPageNumberInputChange s v).2).filter Effect.isRemoteWrite = []) ∧
    (∀ delta n : Int,
      clampJS (jsAdd s.currentPageNumber (.int delta)) (.int 1)
          (.int (s.viewerPagesCount : Int)) = .int n →
      jsNeq (.int n) s.currentPageNumber = true →
      (onPageChangeButton s delta).1.currentPageNumber = .int n ∧
      (onPageChangeButton s delta).1.pageNumberInputValue = .int n ∧
      (onPageChangeButton s delta).1.viewerPageNumber = .int n ∧
      ((onPageChangeButton s delta).2).filter Effect.isRemoteWrite = []) := by
  refine ⟨fun d hd => ?_, fun v n hv hne => ?_, fun delta n hc hne => ?_⟩
  · have hd2 : (some d != s.currentDeck) = true := by
      simpa [bne_iff_ne] using hd
    unfold onDeckNameInputChange setCurrentDeck
    simp [hd2, hauth, Effect.isRemoteWrite, List.filter]
  · unfold onPageNumberInputChange setCurrentPageNumber
    simp [hv, hne, JSNum.isInt, hauth, Effect.isRemoteWrite, List.filter]
  · unfold onPageChangeButton setCurrentPageNumber
    simp [hc, hne, JSNum.isInt, hauth, Effect.isRemoteWrite, List.filter]

/-- Witness for C6: in `stateA0` (signed out) changing the deck to "B"
and the page to 7 updates the controls and the viewer with no remote
write. -/
theorem unauthenticated_local_only_witness :
    stateA0.authUser = none ∧
    ((onDeckNameInputChange stateA0 (some "B")).1.deckNameInputValue = some "B" ∧
      ((onDeckNameInputChange stateA0 (some "B")).2).filter Effect.isRemoteWrite = []) ∧
    ((onPageNumberInputChange stateA0 "7").1.viewerPageNumber = .int 7 ∧
      ((onPageNumberInputChange stateA0 "7").2).filter Effect.isRemoteWrite = []) := by
  have h := unauthenticated_local_only stateA0 (by decide)
  have h1 := h.1 "B" (by decide)
  have h2 := h.2.1 "7" 7 (by decide) (by decide)
  exact ⟨by decide, ⟨h1.2.1, h1.2.2⟩, ⟨h2.2.2.1, h2.2.2.2⟩⟩

/-- When the notified deck equals the local one, `_onSnapshot` starts no
deck load and reduces to the page comparison alone. -/
theorem onSnapshot_deck_eq (s : AdminState) (data : RemoteData) (loadOk : Bool)
    (pc : Nat) (h : data.currentDeck = s.currentDeck) :
    onSnapshot s data loadOk pc =
      (if jsNeq s.currentPageNumber (parseIntJS data.currentPageNumber) then
        setCurrentPageNumber s (parseIntJS data.currentPageNumber)
      else (s, [])) := by
  simp [onSnapshot, h]

/-- C5: over any sequence of remote notifications whose `currentDeck`
equals the local deck, no deck load is invoked, the deck value, the deck
selector and the pages-count display are unchanged, and the viewer's
set-current-page operation runs exactly once per notified page value
that differs from the page current at its delivery (a notification
repeating the current page causes no update). -/
theorem snapshots_same_deck (s : AdminState) (l : List (RemoteData × Bool × Nat))
    (h : ∀ x ∈ l, x.1.currentDeck = s.currentDeck) :
    (runSnapshots s l).1.currentDeck = s.currentDeck ∧
    (runSnapshots s l).1.deckNameInputValue = s.deckNameInputValue ∧
    (runSnapshots s l).1.pagesCountText = s.pagesCountText ∧
    (runSnapshots s l).1.viewerPagesCount = s.viewerPagesCount ∧
    ((runSnapshots s l).2).filter Effect.isLoadDeck = [] ∧
    countPageSets ((runSnapshots s l).2) =
      countDistinctFrom s.currentPageNumber
        (l.map fun x => parseIntJS x.1.currentPageNumber) := by
  induction l generalizing s with
  | nil => simp [runSnapshots, countPageSets, countDistinctFrom]
  | cons x rest ih =>
    have hx : x.1.currentDeck = s.currentDeck := h x (List.mem_cons_self x rest)
    have hs := onSnapshot_deck_eq s x.1 x.2.1 x.2.2 hx
    by_cases hp : jsNeq s.currentPageNumber (parseIntJS x.1.currentPageNumber) = true
    · have hstep : onSnapshot s x.1 x.2.1 x.2.2 =
          setCurrentPageNumber s (parseIntJS x.1.currentPageNumber) := by
        rw [hs, if_pos hp]
      have ihr := ih (setCurrentPageNumber s (parseIntJS x.1.currentPageNumber)).1
        (fun y hy => by
          simpa [setCurrentPageNumber] using h y (List.mem_cons_of_mem x hy))
      simp only [runSnapshots, hstep, setCurrentPageNumber] at ihr ⊢
      obtain ⟨i1, i2, i3, i4, i5, i6⟩ := ihr
      refine ⟨i1, i2, i3, i4, ?_, ?_⟩
      · simpa [Effect.isLoadDeck, List.filter_append, List.filter] using i5
      · simp only [countPageSets, List.filter_append, List.length_append,
          List.map_cons, countDistinctFrom, hp, if_pos] at i6 ⊢
        simp [Effect.isSetViewerPage, List.filter, i6, Nat.add_comm]
    · have hstep : onSnapshot s x.1 x.2.1 x.2.2 = (s, []) := by
        rw [hs, if_neg hp]
      have ihr := ih s (fun y hy => h y (List.mem_cons_of_mem x hy))
      simp only [runSnapshots, hstep] at ihr ⊢
      obtain ⟨i1, i2, i3, i4, i5, i6⟩ := ihr
      refine ⟨i1, i2, i3, i4, by simpa using i5, ?_⟩
      simp only [List.map_cons, countDistinctFrom, hp, if_neg, Bool.not_eq_true,
        List.nil_append]
      simpa using i6

/-- An echo sequence for `stateA`: three notifications on deck "A" with
pages 5, 5, 3 and (irrelevant) load parameters. -/
def echoList : List (RemoteData × Bool × Nat) :=
  [({ currentDeck := some "A", currentPageNumber := some "5" }, true, 0),
   ({ currentDeck := some "A", currentPageNumber := some "5" }, true, 0),
   ({ currentDeck := some "A", currentPageNumber := some "3" }, true, 0)]

/-- Witness for C5: from `stateA` (deck "A", page 3) the echo sequence
5, 5, 3 loads no deck and drives the viewer exactly twice. -/
theorem snapshots_same_deck_witness :
    ((runSnapshots stateA echoList).2).filter Effect.isLoadDeck = [] ∧
    countPageSets ((runSnapshots stateA echoList).2) = 2 := by
  have h := snapshots_same_deck stateA echoList (by decide)
  refine ⟨h.2.2.2.2.1, ?_⟩
  rw [h.2.2.2.2.2]
  decide

/-- C8: on a remote notification whose deck differs, when the deck load
fails the failure is logged, the deck value, the deck selector and the
pages-count display stay at their prior values, and exactly one load was
attempted (no retry). -/
theorem deck_load_failure_leaves_deck (s : AdminState) (data : RemoteData)
    (pc : Nat) (h : data.currentDeck ≠ s.currentDeck) :
    (onSnapshot s data false pc).1.currentDeck = s.currentDeck ∧
    (onSnapshot s data false pc).1.deckNameInputValue = s.deckNameInputValue ∧
    (onSnapshot s data false pc).1.pagesCountText = s.pagesCountText ∧
    ((onSnapshot s data false pc).2).filter Effect.isLoadDeck =
      [Effect.loadDeck data.currentDeck] ∧
    ((onSnapshot s data false pc).2).filter Effect.isLogError =
      [Effect.logError "Error loading document: "] := by
  have hd : (s.currentDeck != data.currentDeck) = true := by
    simp only [bne_iff_ne, ne_eq]
    exact fun e => h e.symm
  by_cases hp : jsNeq s.currentPageNumber (parseIntJS data.currentPageNumber) = true <;>
    simp [onSnapshot, hd, hp, setCurrentPageNumber, Effect.isLoadDeck,
      Effect.isLogError, List.filter_append, List.filter]

/-- Witness for C8: from `stateA` a failing load of deck "B" leaves deck
"A" and the 10-page display, with one load attempt and one logged error. -/
theorem deck_load_failure_leaves_deck_witness :
    (onSnapshot stateA { currentDeck := some "B", currentPageNumber := some "3" }
        false 7).1.currentDeck = stateA.currentDeck ∧
    (onSnapshot stateA { currentDeck := some "B", currentPageNumber := some "3" }
        false 7).1.pagesCountText = stateA.pagesCountText ∧
    ((onSnapshot stateA { currentDeck := some "B", currentPageNumber := some "3" }
        false 7).2).filter Effect.isLoadDeck = [Effect.loadDeck (some "B")] := by
  have h := deck_load_failure_leaves_deck stateA
    { currentDeck := some "B", currentPageNumber := some "3" } 7 (by decide)
  exact ⟨h.1, h.2.2.1, h.2.2.2.1⟩

/-- C9: a remote notification whose `currentPageNumber` does not parse
to an integer (`parseInt` gives `NaN`) always differs from the current
page under JS `!=`, so the handler sets the local page, the page field
and the viewer page to `NaN`. -/
theorem snapshot_nan_page (s : AdminState) (data : RemoteData) (loadOk : Bool)
    (pc : Nat) (h : parseIntJS data.currentPageNumber = .nan) :
    (onSnapshot s data loadOk pc).1.currentPageNumber = .nan ∧
    (onSnapshot s data loadOk pc).1.pageNumberInputValue = .nan ∧
    (onSnapshot s data loadOk pc).1.viewerPageNumber = .nan ∧
    ((onSnapshot s data loadOk pc).2).filter Effect.isSetViewerPage =
      [Effect.setViewerPage .nan] := by
  have hne : jsNeq s.currentPageNumber JSNum.nan = true := by
    cases s.currentPageNumber <;> rfl
  simp only [onSnapshot, h, hne, setCurrentPageNumber, setCurrentDeck, if_true]
  repeat' split
  all_goals
    simp [Effect.isSetViewerPage, List.filter_append, List.filter]

/-- Witness for C9: a notification on deck "A" with no page field sends
`stateA` (page 3) to page `NaN`, propagated to the field and the viewer. -/
theorem snapshot_nan_page_witness :
    parseIntJS (RemoteData.currentPageNumber
        { currentDeck := some "A", currentPageNumber := none }) = .nan ∧
    (onSnapshot stateA { currentDeck := some "A", currentPageNumber := none }
        true 0).1.currentPageNumber = .nan ∧
    (onSnapshot stateA { currentDeck := some "A", currentPageNumber := none }
        true 0).1.viewerPageNumber = .nan :=
  have h := snapshot_nan_page stateA
    { currentDeck := some "A", currentPageNumber := none } true 0 (by decide)
  ⟨by decide, h.1, h.2.2.1⟩

/-- C10: a local deck-selector change invokes no deck load and leaves
every page and viewer field untouched; a snapshot starts a deck load
exactly when the notified deck differs from the local one; and after a
local change to a deck name, the echo notification carrying that same
name loads nothing. -/
theorem local_deck_change_never_loads (s : AdminState) :
    (∀ d : Option String,
      ((onDeckNameInputChange s d).2).filter Effect.isLoadDeck = [] ∧
      (onDeckNameInputChange s d).1.currentPageNumber = s.currentPageNumber ∧
      (onDeckNameInputChange s d).1.pageNumberInputValue = s.pageNumberInputValue ∧
      (onDeckNameInputChange s d).1.pagesCountText = s.pagesCountText ∧
      (onDeckNameInputChange s d).1.viewerPagesCount = s.viewerPagesCount ∧
      (onDeckNameInputChange s d).1.viewerPageNumber = s.viewerPageNumber) ∧
    (∀ data : RemoteData, ∀ loadOk : Bool, ∀ pc : Nat,
      (((onSnapshot s data loadOk pc).2).filter Effect.isLoadDeck ≠ [] ↔
        data.currentDeck ≠ s.currentDeck)) ∧
    (∀ dName : String, ∀ data : RemoteData, ∀ loadOk : Bool, ∀ pc : Nat,
      data.currentDeck = some dName →
      ((onSnapshot (onDeckNameInputChange s (some dName)).1 data loadOk pc).2).filter
        Effect.isLoadDeck = []) := by
  refine ⟨fun d => ?_, fun data loadOk pc => ?_, fun dName data loadOk pc hdata => ?_⟩
  · simp only [onDeckNameInputChange, setCurrentDeck]
    repeat' split
    all_goals simp [Effect.isLoadDeck, List.filter]
  · by_cases hd : data.currentDeck = s.currentDeck
    · rw [onSnapshot_deck_eq s data loadOk pc hd]
      by_cases hp : jsNeq s.currentPageNumber (parseIntJS data.currentPageNumber) = true <;>
        simp [hp, setCurrentPageNumber, Effect.isLoadDeck, List.filter, hd]
    · have hb : (s.currentDeck != data.currentDeck) = true := by
        simp only [bne_iff_ne, ne_eq]
        exact fun e => hd e.symm
      simp only [onSnapshot, hb, if_true]
      constructor
      · intro _
        exact hd
      · intro _
        by_cases hp : jsNeq s.currentPageNumber (parseIntJS data.currentPageNumber) = true <;>
          split <;>
            simp [hp, setCurrentPageNumber, Effect.isLoadDeck,
              List.filter_append, List.filter]
  · have hcd : (onDeckNameInputChange s (some dName)).1.currentDeck = some dName := by
      by_cases hb : some dName = s.currentDeck
      · have hcond : ((some dName : Option String) != none &&
            (some dName != s.currentDeck)) = false := by
          simp [hb]
        simp only [onDeckNameInputChange, hcond, Bool.false_eq_true, if_false]
        exact hb.symm
      · have hcond : ((some dName : Option String) != none &&
            (some dName != s.currentDeck)) = true := by
          simp only [Bool.and_eq_true, bne_iff_ne, ne_eq]
          exact ⟨by simp, hb⟩
        rcases hauth : s.authUser with _ | u <;>
          simp [onDeckNameInputChange, setCurrentDeck, hcond, hauth]
    rw [onSnapshot_deck_eq _ data loadOk pc (by rw [hdata, hcd])]
    by_cases hp : jsNeq (onDeckNameInputChange s (some dName)).1.currentPageNumber
        (parseIntJS data.currentPageNumber) = true <;>
      simp [hp, setCurrentPageNumber, Effect.isLoadDeck, List.filter]

/-- Witness for C10: from `stateA`, locally switching to deck "B" loads
nothing, and the echo notification carrying deck "B" also loads nothing. -/
theorem local_deck_change_never_loads_witness :
    RemoteData.currentDeck { currentDeck := some "B", currentPageNumber := some "3" } =
      some "B" ∧
    ((onDeckNameInputChange stateA (some "B")).2).filter Effect.isLoadDeck = [] ∧
    ((onSnapshot (onDeckNameInputChange stateA (some "B")).1
        { currentDeck := some "B", currentPageNumber := some "3" } true
        0).2).filter Effect.isLoadDeck = [] :=
  have h := local_deck_change_never_loads stateA
  ⟨by decide, (h.1 (some "B")).1,
    h.2.2 "B" { currentDeck := some "B", currentPageNumber := some "3" } true 0
      (by decide)⟩

end PdfAdmin
